import Mathlib

/-!
Shallow embedding of `bot/cogs/dm_relay.py` (the `DMRelay` cog).

The cog holds two mutable fields, `webhook` (an optional webhook handle,
fetched once at startup) and `last_dm_user` (the most recent relayed DM
author).  Its operations are embedded as pure functions from a state (and
an outcome of the external collaborator calls) to a new state together with
a trace of observable effects: webhook posts issued via `send_webhook`,
attachment forwards delegated to `send_attachments`, direct-message sends,
reactions added to the invoking message, and log records.
-/

namespace DMRelay

/-- A platform user as the relay sees it: identity, whether the account is a
bot account, and the display metadata used when impersonating the sender. -/
structure User where
  uid : Nat
  bot : Bool
  display_name : String
  avatar_url : String
deriving DecidableEq, Repr

/-- An inbound message event: author, whether it originated in a guild
(`message.guild` is truthy) rather than a DM, its cleaned text content, and
its attachments (identified by opaque ids). -/
structure Message where
  author : User
  guild : Bool
  clean_content : String
  attachments : List Nat
deriving DecidableEq, Repr

/-- The mutable state of the `DMRelay` cog: the configured webhook id, the
optional webhook handle, and the optional last DM author. -/
structure DMRelayState where
  webhook_id : Nat
  webhook : Option Nat
  last_dm_user : Option User
deriving DecidableEq, Repr

/-- The state built by `DMRelay.__init__`: `webhook = None`,
`last_dm_user = None`. -/
def init (webhook_id : Nat) : DMRelayState :=
  { webhook_id := webhook_id, webhook := none, last_dm_user := none }

/-- Payload of a `send_webhook` call: either plain `content` text or an
`embed` with a description and a colour. -/
inductive Payload where
  | content (text : String)
  | embed (description : String) (color : Nat)
deriving DecidableEq, Repr

/-- One `send_webhook` call: destination handle, payload, and the
impersonated sender identity (`username`, `avatar_url`). -/
structure WebhookPost where
  webhook : Nat
  payload : Payload
  username : String
  avatar_url : String
deriving DecidableEq, Repr

/-- Observable effects of the inbound relay handler. -/
inductive RelayEffect where
  | webhookPost (p : WebhookPost)
  | forwardAttachments (attachments : List Nat) (webhook : Nat)
  | logException (text : String)
deriving DecidableEq, Repr

/-- Outcome of the `send_attachments` collaborator call: success, or one of
the exception classes distinguished by the handler (`discord.errors.Forbidden`,
`discord.errors.NotFound`, any other `discord.HTTPException`). -/
inductive ForwardOutcome where
  | ok
  | forbidden
  | notFound
  | otherHttp
deriving DecidableEq, Repr

/-- Colour value of `discord.Color.red()`. -/
def colorRed : Nat := 0xe74c3c

/-- Description of the embed posted when an attachment cannot be retrieved. -/
def attachmentErrorDescription : String :=
  ":x: **This message contained an attachment, but it could not be retrieved**"

/-- The guard `message.author.bot or message.guild or self.webhook is None`. -/
def skipGuard (st : DMRelayState) (message : Message) : Bool :=
  message.author.bot || message.guild || st.webhook.isNone

/-- The `on_message` listener: skip non-qualifying messages; post non-empty
cleaned text to the webhook under the author's identity and record the
author as `last_dm_user`; then forward any attachments, posting a red error
embed on `Forbidden`/`NotFound` and logging any other `HTTPException`. -/
def on_message (st : DMRelayState) (message : Message) (fwd : ForwardOutcome) :
    DMRelayState × List RelayEffect :=
  if skipGuard st message then (st, [])
  else
    match st.webhook with
    | none => (st, [])
    | some wh =>
      let textStep : DMRelayState × List RelayEffect :=
        if message.clean_content ≠ "" then
          ({ st with last_dm_user := some message.author },
           [RelayEffect.webhookPost
              { webhook := wh, payload := Payload.content message.clean_content,
                username := message.author.display_name,
                avatar_url := message.author.avatar_url }])
        else (st, [])
      let attachStep : List RelayEffect :=
        if message.attachments ≠ [] then
          match fwd with
          | ForwardOutcome.ok =>
              [RelayEffect.forwardAttachments message.attachments wh]
          | ForwardOutcome.forbidden =>
              [RelayEffect.webhookPost
                 { webhook := wh,
                   payload := Payload.embed attachmentErrorDescription colorRed,
                   username := message.author.display_name,
                   avatar_url := message.author.avatar_url }]
          | ForwardOutcome.notFound =>
              [RelayEffect.webhookPost
                 { webhook := wh,
                   payload := Payload.embed attachmentErrorDescription colorRed,
                   username := message.author.display_name,
                   avatar_url := message.author.avatar_url }]
          | ForwardOutcome.otherHttp =>
              [RelayEffect.logException "Failed to send an attachment to the webhook"]
        else []
      (textStep.1, textStep.2 ++ attachStep)

/-- Observable effects of the `send_dm` command. -/
inductive DMEffect where
  | sendDM (target : User) (text : String)
  | addReaction (emoji : String)
  | logDebug (text : String)
deriving DecidableEq, Repr

/-- The body of the `send_dm` command (alias `reply`): an explicit `member`
target wins; otherwise fall back to `last_dm_user`; otherwise log at debug
level and react with a cross mark. -/
def send_dm (st : DMRelayState) (member : Option User) (message : String) :
    DMRelayState × List DMEffect :=
  match member with
  | some m => (st, [DMEffect.sendDM m message, DMEffect.addReaction "✅"])
  | none =>
    match st.last_dm_user with
    | some u => (st, [DMEffect.sendDM u message, DMEffect.addReaction "✅"])
    | none =>
        (st, [DMEffect.logDebug "Unable to send a DM to the user.",
              DMEffect.addReaction "❌"])

/-- Modelled from the spec: `bot.utils.checks.with_role_check` is not under
the sources; per the spec it verifies that the invoking operator holds at
least one of the given roles. -/
def with_role_check (ctxRoles : List Nat) (roles : List Nat) : Bool :=
  roles.any (fun r => ctxRoles.contains r)

/-- The `cog_check` gate: `with_role_check(ctx, *MODERATION_ROLES)`.  The
`MODERATION_ROLES` constant is configuration outside the sources, so it is a
parameter here. -/
def cog_check (ctxRoles : List Nat) (moderationRoles : List Nat) : Bool :=
  with_role_check ctxRoles moderationRoles

/-- Modelled from the spec: the command framework runs `cog_check` before
the command body and rejects the invocation with no side effect when the
check fails. -/
def invoke_send_dm (st : DMRelayState) (ctxRoles moderationRoles : List Nat)
    (member : Option User) (message : String) : DMRelayState × List DMEffect :=
  if cog_check ctxRoles moderationRoles then send_dm st member message
  else (st, [])

/-- Outcome of the `bot.fetch_webhook` collaborator call during startup. -/
inductive FetchOutcome where
  | success (wh : Nat)
  | httpError
deriving DecidableEq, Repr

/-- The `fetch_webhook` initializer: on success store the handle; on any
`discord.HTTPException` log the failure (with the configured webhook id) and
leave the state untouched. -/
def fetch_webhook (st : DMRelayState) (outcome : FetchOutcome) :
    DMRelayState × List String :=
  match outcome with
  | FetchOutcome.success wh => ({ st with webhook := some wh }, [])
  | FetchOutcome.httpError =>
      (st, ["Failed to fetch webhook with id `" ++ toString st.webhook_id ++ "`"])

/-- Whether an effect is a webhook post whose payload is exactly the given
text content. -/
def isTextPost (text : String) : RelayEffect → Bool
  | RelayEffect.webhookPost p =>
      match p.payload with
      | Payload.content t => t == text
      | _ => false
  | _ => false

/-- Whether an effect is any webhook post. -/
def isPost : RelayEffect → Bool
  | RelayEffect.webhookPost _ => true
  | _ => false

/-- Whether an effect is a webhook post carrying an embed payload. -/
def isEmbedPost : RelayEffect → Bool
  | RelayEffect.webhookPost p =>
      match p.payload with
      | Payload.embed _ _ => true
      | _ => false
  | _ => false

/-- Number of webhook posts in a trace carrying the given text content. -/
def countTextPosts (text : String) (effs : List RelayEffect) : Nat :=
  effs.countP (isTextPost text)

/-- Number of webhook posts in a trace. -/
def countPosts (effs : List RelayEffect) : Nat :=
  effs.countP isPost

/-- Number of embed-carrying webhook posts in a trace. -/
def countEmbedPosts (effs : List RelayEffect) : Nat :=
  effs.countP isEmbedPost

/-- A qualifying message does not hit the skip guard. -/
lemma skipGuard_eq_false (st : DMRelayState) (msg : Message) (wh : Nat)
    (hbot : msg.author.bot = false) (hguild : msg.guild = false)
    (hwh : st.webhook = some wh) : skipGuard st msg = false := by
  simp [skipGuard, hbot, hguild, hwh]

end DMRelay

open DMRelay

/-- C1. For every qualifying inbound message (human author, direct context,
webhook handle present) with non-empty cleaned text, the handler issues
exactly one webhook post carrying that text, that post impersonates the
author (display name and avatar), and `last_dm_user` equals the author
afterwards. -/
theorem dmrelay_C1 (st : DMRelayState) (msg : Message) (fwd : ForwardOutcome)
    (wh : Nat) (hbot : msg.author.bot = false) (hguild : msg.guild = false)
    (hwh : st.webhook = some wh) (htext : msg.clean_content ≠ "") :
    countTextPosts msg.clean_content (on_message st msg fwd).2 = 1 ∧
    RelayEffect.webhookPost
      { webhook := wh, payload := Payload.content msg.clean_content,
        username := msg.author.display_name,
        avatar_url := msg.author.avatar_url } ∈ (on_message st msg fwd).2 ∧
    (on_message st msg fwd).1.last_dm_user = some msg.author := by
  have hg := skipGuard_eq_false st msg wh hbot hguild hwh
  by_cases ha : msg.attachments = [] <;>
    cases fwd <;>
      simp [on_message, hg, hwh, htext, ha, countTextPosts, isTextPost,
        List.countP_cons, List.countP_nil]

/-- Witness for C1 at a concrete input. -/
theorem dmrelay_C1_witness :
    (⟨⟨1, false, "Alice", "a.png"⟩, false, "hi", [7]⟩ : Message).author.bot = false ∧
    (⟨⟨1, false, "Alice", "a.png"⟩, false, "hi", [7]⟩ : Message).guild = false ∧
    (⟨2, some 5, none⟩ : DMRelayState).webhook = some 5 ∧
    (⟨⟨1, false, "Alice", "a.png"⟩, false, "hi", [7]⟩ : Message).clean_content ≠ "" ∧
    (countTextPosts
        (⟨⟨1, false, "Alice", "a.png"⟩, false, "hi", [7]⟩ : Message).clean_content
        (on_message ⟨2, some 5, none⟩ ⟨⟨1, false, "Alice", "a.png"⟩, false, "hi", [7]⟩
          ForwardOutcome.ok).2 = 1 ∧
      RelayEffect.webhookPost
        { webhook := 5, payload := Payload.content "hi",
          username := "Alice", avatar_url := "a.png" } ∈
        (on_message ⟨2, some 5, none⟩ ⟨⟨1, false, "Alice", "a.png"⟩, false, "hi", [7]⟩
          ForwardOutcome.ok).2 ∧
      (on_message ⟨2, some 5, none⟩ ⟨⟨1, false, "Alice", "a.png"⟩, false, "hi", [7]⟩
          ForwardOutcome.ok).1.last_dm_user = some ⟨1, false, "Alice", "a.png"⟩) :=
  ⟨rfl, rfl, rfl, by decide,
   dmrelay_C1 ⟨2, some 5, none⟩ ⟨⟨1, false, "Alice", "a.png"⟩, false, "hi", [7]⟩
     ForwardOutcome.ok 5 rfl rfl rfl (by decide)⟩

/-- C2. Whenever the author is a bot, or the message is guild-scoped, or no
webhook handle is held, the handler performs no effect and leaves the state
unchanged; moreover the skip guard is exactly the ordered short-circuit of
the three conditions (author-is-bot first, then guild, then missing
webhook). -/
theorem dmrelay_C2 (st : DMRelayState) (msg : Message) (fwd : ForwardOutcome)
    (h : msg.author.bot = true ∨ msg.guild = true ∨ st.webhook = none) :
    on_message st msg fwd = (st, []) ∧
    skipGuard st msg =
      (if msg.author.bot then true
       else if msg.guild then true else st.webhook.isNone) := by
  have hg : skipGuard st msg = true := by
    rcases h with h | h | h <;> simp [skipGuard, h]
  refine ⟨by simp [on_message, hg], ?_⟩
  cases hb : msg.author.bot <;> cases hgl : msg.guild <;> simp [skipGuard, hb, hgl]

/-- Witness for C2 at a concrete input. -/
theorem dmrelay_C2_witness :
    ((⟨⟨1, true, "Eve", "e.png"⟩, false, "hi", []⟩ : Message).author.bot = true ∨
      (⟨⟨1, true, "Eve", "e.png"⟩, false, "hi", []⟩ : Message).guild = true ∨
      (⟨2, some 5, none⟩ : DMRelayState).webhook = none) ∧
    (on_message ⟨2, some 5, none⟩ ⟨⟨1, true, "Eve", "e.png"⟩, false, "hi", []⟩
        ForwardOutcome.ok = (⟨2, some 5, none⟩, []) ∧
      skipGuard ⟨2, some 5, none⟩ ⟨⟨1, true, "Eve", "e.png"⟩, false, "hi", []⟩ =
        (if (⟨⟨1, true, "Eve", "e.png"⟩, false, "hi", []⟩ : Message).author.bot then true
         else if (⟨⟨1, true, "Eve", "e.png"⟩, false, "hi", []⟩ : Message).guild then true
         else (⟨2, some 5, none⟩ : DMRelayState).webhook.isNone)) :=
  ⟨Or.inl rfl,
   dmrelay_C2 ⟨2, some 5, none⟩ ⟨⟨1, true, "Eve", "e.png"⟩, false, "hi", []⟩
     ForwardOutcome.ok (Or.inl rfl)⟩

/-- C3. For every qualifying message with attachments whose forwarding fails
with `Forbidden` or `NotFound`, the handler issues exactly one embed webhook
post (the red attachment-error placeholder) under the author's identity, and
no raw attachment forward appears in the trace. -/
theorem dmrelay_C3 (st : DMRelayState) (msg : Message) (fwd : ForwardOutcome)
    (wh : Nat) (hbot : msg.author.bot = false) (hguild : msg.guild = false)
    (hwh : st.webhook = some wh) (hatt : msg.attachments ≠ [])
    (hfwd : fwd = ForwardOutcome.forbidden ∨ fwd = ForwardOutcome.notFound) :
    countEmbedPosts (on_message st msg fwd).2 = 1 ∧
    RelayEffect.webhookPost
      { webhook := wh, payload := Payload.embed attachmentErrorDescription colorRed,
        username := msg.author.display_name,
        avatar_url := msg.author.avatar_url } ∈ (on_message st msg fwd).2 ∧
    ∀ a w, RelayEffect.forwardAttachments a w ∉ (on_message st msg fwd).2 := by
  have hg := skipGuard_eq_false st msg wh hbot hguild hwh
  rcases hfwd with rfl | rfl <;>
    by_cases ht : msg.clean_content = "" <;>
      simp [on_message, hg, hwh, ht, hatt, countEmbedPosts, isEmbedPost,
        List.countP_cons, List.countP_nil]

/-- Witness for C3 at a concrete input. -/
theorem dmrelay_C3_witness :
    (⟨⟨1, false, "Alice", "a.png"⟩, false, "hi", [7]⟩ : Message).author.bot = false ∧
    (⟨⟨1, false, "Alice", "a.png"⟩, false, "hi", [7]⟩ : Message).guild = false ∧
    (⟨2, some 5, none⟩ : DMRelayState).webhook = some 5 ∧
    (⟨⟨1, false, "Alice", "a.png"⟩, false, "hi", [7]⟩ : Message).attachments ≠ [] ∧
    (ForwardOutcome.forbidden = ForwardOutcome.forbidden ∨
      ForwardOutcome.forbidden = ForwardOutcome.notFound) ∧
    (countEmbedPosts
        (on_message ⟨2, some 5, none⟩ ⟨⟨1, false, "Alice", "a.png"⟩, false, "hi", [7]⟩
          ForwardOutcome.forbidden).2 = 1 ∧
      RelayEffect.webhookPost
        { webhook := 5, payload := Payload.embed attachmentErrorDescription colorRed,
          username := "Alice", avatar_url := "a.png" } ∈
        (on_message ⟨2, some 5, none⟩ ⟨⟨1, false, "Alice", "a.png"⟩, false, "hi", [7]⟩
          ForwardOutcome.forbidden).2 ∧
      ∀ a w, RelayEffect.forwardAttachments a w ∉
        (on_message ⟨2, some 5, none⟩ ⟨⟨1, false, "Alice", "a.png"⟩, false, "hi", [7]⟩
          ForwardOutcome.forbidden).2) :=
  ⟨rfl, rfl, rfl, by decide, Or.inl rfl,
   dmrelay_C3 ⟨2, some 5, none⟩ ⟨⟨1, false, "Alice", "a.png"⟩, false, "hi", [7]⟩
     ForwardOutcome.forbidden 5 rfl rfl rfl (by decide) (Or.inl rfl)⟩

/-- C4 counterexample: a qualifying attachment-only message (empty cleaned
text) is relayed — its attachments are forwarded — yet `last_dm_user` is not
set to the author. -/
theorem dmrelay_C4_counterexample :
    (on_message ⟨2, some 5, none⟩ ⟨⟨1, false, "Alice", "a.png"⟩, false, "", [7]⟩
        ForwardOutcome.ok).2 ≠ [] ∧
    (on_message ⟨2, some 5, none⟩ ⟨⟨1, false, "Alice", "a.png"⟩, false, "", [7]⟩
        ForwardOutcome.ok).1.last_dm_user ≠
      some (⟨1, false, "Alice", "a.png"⟩ : User) := by
  constructor <;> decide

/-- C4 amended. For a qualifying message, `last_dm_user` is overwritten with
the author exactly when the cleaned text is non-empty; an attachment-only
relay (empty cleaned text) leaves it unchanged even when it produces a
webhook forward or post. -/
theorem dmrelay_C4 (st : DMRelayState) (msg : Message) (fwd : ForwardOutcome)
    (wh : Nat) (hbot : msg.author.bot = false) (hguild : msg.guild = false)
    (hwh : st.webhook = some wh) :
    (msg.clean_content ≠ "" →
      (on_message st msg fwd).1.last_dm_user = some msg.author) ∧
    (msg.clean_content = "" →
      (on_message st msg fwd).1.last_dm_user = st.last_dm_user) := by
  have hg := skipGuard_eq_false st msg wh hbot hguild hwh
  by_cases ht : msg.clean_content = "" <;>
    simp [on_message, hg, hwh, ht]

/-- Witness for C4 (amended) at a concrete input. -/
theorem dmrelay_C4_witness :
    (⟨⟨1, false, "Alice", "a.png"⟩, false, "", [7]⟩ : Message).author.bot = false ∧
    (⟨⟨1, false, "Alice", "a.png"⟩, false, "", [7]⟩ : Message).guild = false ∧
    (⟨2, some 5, none⟩ : DMRelayState).webhook = some 5 ∧
    (((⟨⟨1, false, "Alice", "a.png"⟩, false, "", [7]⟩ : Message).clean_content ≠ "" →
        (on_message ⟨2, some 5, none⟩ ⟨⟨1, false, "Alice", "a.png"⟩, false, "", [7]⟩
            ForwardOutcome.ok).1.last_dm_user =
          some (⟨1, false, "Alice", "a.png"⟩ : User)) ∧
      ((⟨⟨1, false, "Alice", "a.png"⟩, false, "", [7]⟩ : Message).clean_content = "" →
        (on_message ⟨2, some 5, none⟩ ⟨⟨1, false, "Alice", "a.png"⟩, false, "", [7]⟩
            ForwardOutcome.ok).1.last_dm_user =
          (⟨2, some 5, none⟩ : DMRelayState).last_dm_user)) :=
  ⟨rfl, rfl, rfl,
   dmrelay_C4 ⟨2, some 5, none⟩ ⟨⟨1, false, "Alice", "a.png"⟩, false, "", [7]⟩
     ForwardOutcome.ok 5 rfl rfl rfl⟩

/-- C5. For every authorized invocation of the reply command with no
explicit target: if `last_dm_user` is some user `u`, the body is DM'd to `u`
and a check-mark reaction is added; if `last_dm_user` is unset, no DM is
sent, the failure is logged at debug level, and a cross-mark reaction is
added. -/
theorem dmrelay_C5 (st : DMRelayState) (ctxRoles moderationRoles : List Nat)
    (message : String) (hauth : cog_check ctxRoles moderationRoles = true) :
    (∀ u, st.last_dm_user = some u →
      invoke_send_dm st ctxRoles moderationRoles none message =
        (st, [DMEffect.sendDM u message, DMEffect.addReaction "✅"])) ∧
    (st.last_dm_user = none →
      invoke_send_dm st ctxRoles moderationRoles none message =
        (st, [DMEffect.logDebug "Unable to send a DM to the user.",
              DMEffect.addReaction "❌"])) := by
  constructor
  · intro u hu
    simp [invoke_send_dm, hauth, send_dm, hu]
  · intro hu
    simp [invoke_send_dm, hauth, send_dm, hu]

/-- Witness for C5 at a concrete input. -/
theorem dmrelay_C5_witness :
    cog_check [3] [3] = true ∧
    ((∀ u, (⟨2, some 5, some ⟨1, false, "Alice", "a.png"⟩⟩ : DMRelayState).last_dm_user
          = some u →
        invoke_send_dm ⟨2, some 5, some ⟨1, false, "Alice", "a.png"⟩⟩ [3] [3] none "yo" =
          (⟨2, some 5, some ⟨1, false, "Alice", "a.png"⟩⟩,
           [DMEffect.sendDM u "yo", DMEffect.addReaction "✅"])) ∧
      ((⟨2, some 5, some ⟨1, false, "Alice", "a.png"⟩⟩ : DMRelayState).last_dm_user
          = none →
        invoke_send_dm ⟨2, some 5, some ⟨1, false, "Alice", "a.png"⟩⟩ [3] [3] none "yo" =
          (⟨2, some 5, some ⟨1, false, "Alice", "a.png"⟩⟩,
           [DMEffect.logDebug "Unable to send a DM to the user.",
            DMEffect.addReaction "❌"]))) :=
  ⟨rfl, dmrelay_C5 ⟨2, some 5, some ⟨1, false, "Alice", "a.png"⟩⟩ [3] [3] "yo" rfl⟩

/-- C6. For every authorized invocation of the reply command with an
explicit target, the body is DM'd to that target regardless of
`last_dm_user`, and a check-mark reaction is added. -/
theorem dmrelay_C6 (st : DMRelayState) (ctxRoles moderationRoles : List Nat)
    (m : User) (message : String)
    (hauth : cog_check ctxRoles moderationRoles = true) :
    invoke_send_dm st ctxRoles moderationRoles (some m) message =
      (st, [DMEffect.sendDM m message, DMEffect.addReaction "✅"]) := by
  simp [invoke_send_dm, hauth, send_dm]

/-- Witness for C6 at a concrete input (with `last_dm_user` set to a
different user). -/
theorem dmrelay_C6_witness :
    cog_check [3] [3] = true ∧
    invoke_send_dm ⟨2, some 5, some ⟨1, false, "Alice", "a.png"⟩⟩ [3] [3]
        (some ⟨9, false, "Bob", "b.png"⟩) "yo" =
      (⟨2, some 5, some ⟨1, false, "Alice", "a.png"⟩⟩,
       [DMEffect.sendDM ⟨9, false, "Bob", "b.png"⟩ "yo",
        DMEffect.addReaction "✅"]) :=
  ⟨rfl, dmrelay_C6 ⟨2, some 5, some ⟨1, false, "Alice", "a.png"⟩⟩ [3] [3]
    ⟨9, false, "Bob", "b.png"⟩ "yo" rfl⟩

/-- C7. An invocation by an operator holding none of the moderator roles is
rejected before the command body runs: the state is unchanged and no effect
(no DM, no reaction, no log) is produced. -/
theorem dmrelay_C7 (st : DMRelayState) (ctxRoles moderationRoles : List Nat)
    (member : Option User) (message : String)
    (hauth : cog_check ctxRoles moderationRoles = false) :
    invoke_send_dm st ctxRoles moderationRoles member message = (st, []) := by
  simp [invoke_send_dm, hauth]

/-- Witness for C7 at a concrete input. -/
theorem dmrelay_C7_witness :
    cog_check [4] [3] = false ∧
    invoke_send_dm ⟨2, some 5, some ⟨1, false, "Alice", "a.png"⟩⟩ [4] [3]
        (some ⟨9, false, "Bob", "b.png"⟩) "yo" =
      (⟨2, some 5, some ⟨1, false, "Alice", "a.png"⟩⟩, []) :=
  ⟨rfl, dmrelay_C7 ⟨2, some 5, some ⟨1, false, "Alice", "a.png"⟩⟩ [4] [3]
    (some ⟨9, false, "Bob", "b.png"⟩) "yo" rfl⟩

/-- C8. A transport failure during webhook initialization leaves the state
unchanged (the handle stays absent), produces exactly one log record naming
the configured webhook id, and every subsequent `on_message` call is a
no-op. -/
theorem dmrelay_C8 (st : DMRelayState) (hwh : st.webhook = none) :
    (fetch_webhook st FetchOutcome.httpError).1 = st ∧
    (fetch_webhook st FetchOutcome.httpError).2 =
      ["Failed to fetch webhook with id `" ++ toString st.webhook_id ++ "`"] ∧
    ∀ msg fwd,
      on_message (fetch_webhook st FetchOutcome.httpError).1 msg fwd =
        ((fetch_webhook st FetchOutcome.httpError).1, []) := by
  refine ⟨rfl, rfl, ?_⟩
  intro msg fwd
  have hg : skipGuard (fetch_webhook st FetchOutcome.httpError).1 msg = true := by
    simp [fetch_webhook, skipGuard, hwh]
  simp [on_message, hg]

/-- Witness for C8 at a concrete input (the freshly initialized state). -/
theorem dmrelay_C8_witness :
    (init 2).webhook = none ∧
    ((fetch_webhook (init 2) FetchOutcome.httpError).1 = init 2 ∧
      (fetch_webhook (init 2) FetchOutcome.httpError).2 =
        ["Failed to fetch webhook with id `" ++ toString (init 2).webhook_id ++ "`"] ∧
      ∀ msg fwd,
        on_message (fetch_webhook (init 2) FetchOutcome.httpError).1 msg fwd =
          ((fetch_webhook (init 2) FetchOutcome.httpError).1, [])) :=
  ⟨rfl, dmrelay_C8 (init 2) rfl⟩

/-- C9. For every qualifying message with attachments whose forwarding fails
with an `HTTPException` other than `Forbidden`/`NotFound`, the handler logs
the failure and does nothing else about the attachments: no forward appears,
no embed post is issued, and the only webhook post (if any) is the text
post. -/
theorem dmrelay_C9 (st : DMRelayState) (msg : Message) (wh : Nat)
    (hbot : msg.author.bot = false) (hguild : msg.guild = false)
    (hwh : st.webhook = some wh) (hatt : msg.attachments ≠ []) :
    RelayEffect.logException "Failed to send an attachment to the webhook" ∈
      (on_message st msg ForwardOutcome.otherHttp).2 ∧
    countPosts (on_message st msg ForwardOutcome.otherHttp).2 =
      (if msg.clean_content ≠ "" then 1 else 0) ∧
    countEmbedPosts (on_message st msg ForwardOutcome.otherHttp).2 = 0 ∧
    ∀ a w, RelayEffect.forwardAttachments a w ∉
      (on_message st msg ForwardOutcome.otherHttp).2 := by
  have hg := skipGuard_eq_false st msg wh hbot hguild hwh
  by_cases ht : msg.clean_content = "" <;>
    simp [on_message, hg, hwh, ht, hatt, countPosts, isPost, countEmbedPosts,
      isEmbedPost, List.countP_cons, List.countP_nil]

/-- Witness for C9 at a concrete input. -/
theorem dmrelay_C9_witness :
    (⟨⟨1, false, "Alice", "a.png"⟩, false, "hi", [7]⟩ : Message).author.bot = false ∧
    (⟨⟨1, false, "Alice", "a.png"⟩, false, "hi", [7]⟩ : Message).guild = false ∧
    (⟨2, some 5, none⟩ : DMRelayState).webhook = some 5 ∧
    (⟨⟨1, false, "Alice", "a.png"⟩, false, "hi", [7]⟩ : Message).attachments ≠ [] ∧
    (RelayEffect.logException "Failed to send an attachment to the webhook" ∈
        (on_message ⟨2, some 5, none⟩ ⟨⟨1, false, "Alice", "a.png"⟩, false, "hi", [7]⟩
          ForwardOutcome.otherHttp).2 ∧
      countPosts (on_message ⟨2, some 5, none⟩
          ⟨⟨1, false, "Alice", "a.png"⟩, false, "hi", [7]⟩ ForwardOutcome.otherHttp).2 =
        (if (⟨⟨1, false, "Alice", "a.png"⟩, false, "hi", [7]⟩ : Message).clean_content ≠ ""
         then 1 else 0) ∧
      countEmbedPosts (on_message ⟨2, some 5, none⟩
          ⟨⟨1, false, "Alice", "a.png"⟩, false, "hi", [7]⟩ ForwardOutcome.otherHttp).2 = 0 ∧
      ∀ a w, RelayEffect.forwardAttachments a w ∉
        (on_message ⟨2, some 5, none⟩ ⟨⟨1, false, "Alice", "a.png"⟩, false, "hi", [7]⟩
          ForwardOutcome.otherHttp).2) :=
  ⟨rfl, rfl, rfl, by decide,
   dmrelay_C9 ⟨2, some 5, none⟩ ⟨⟨1, false, "Alice", "a.png"⟩, false, "hi", [7]⟩
     5 rfl rfl rfl (by decide)⟩

/-- C10. The reply command never mutates the relay state; the initializer
never touches `last_dm_user`; and the inbound handler never touches the
webhook handle or the configured id. -/
theorem dmrelay_C10 (st : DMRelayState) (member : Option User)
    (message : String) (msg : Message) (fwd : ForwardOutcome)
    (outcome : FetchOutcome) :
    (send_dm st member message).1 = st ∧
    (fetch_webhook st outcome).1.last_dm_user = st.last_dm_user ∧
    (fetch_webhook st outcome).1.webhook_id = st.webhook_id ∧
    (on_message st msg fwd).1.webhook = st.webhook ∧
    (on_message st msg fwd).1.webhook_id = st.webhook_id := by
  refine ⟨?_, ?_, ?_, ?_, ?_⟩
  · cases member with
    | some m => rfl
    | none => cases h : st.last_dm_user <;> simp [send_dm, h]
  · cases outcome <;> simp [fetch_webhook]
  · cases outcome <;> simp [fetch_webhook]
  · by_cases hg : skipGuard st msg = true <;>
      cases hw : st.webhook <;>
        by_cases ht : msg.clean_content = "" <;>
          simp [on_message, hg, hw, ht]
  · by_cases hg : skipGuard st msg = true <;>
      cases hw : st.webhook <;>
        by_cases ht : msg.clean_content = "" <;>
          simp [on_message, hg, hw, ht]
